import Mathlib

/-!
Verification of the CLNP liveness-verification server (server.js, analysis.js).

Shallow embedding conventions:
* Wall-clock server times (`Date.now()`, `expiresAt`, `usedAt`) are integers (ms).
* Client-side timestamps, durations and parameter values carried by raw data are
  rationals (JS doubles are binary rationals); values produced by the
  transcendental parts of the math (`Math.sin`, `Math.exp`) live in `ℝ`,
  with `Real.sin` / `Real.exp` standing for the JS intrinsics.
* The in-process challenge `Map` is an association list keyed by `challengeId`;
  in-place mutation of a record obtained from `Map.get` is modelled by
  `updateFirst`, which rewrites the first record with the matching id.
* A JS function that can throw is modelled with an `Option` result
  (`none` = exception), so the 500 `analysis_failed` path is representable.
* Randomness is modelled by quantifying over the drawn values: the
  random-comparator shuffle in `pickRandom` becomes an arbitrary permutation
  of the pool, supplied as an argument together with a `Perm` hypothesis.
-/

namespace CLNP

/-- One multi-sine probe of a challenge (`generateChallenge` /
`generateEmbedChallenge` in server.js).  The standalone generator stores
integer-rounded amplitudes, the embed generator 3-decimal ones; both are
rationals here.  `phaseOffset` is `π/3 ± 0.3`, hence real. -/
structure Probe where
  freq : ℚ
  ampX : ℚ
  ampY : ℚ
  phaseOffset : ℝ

/-- One displacement pulse.  Standalone pulses carry `offsetMs` (ms since
`trackingStart`); embed pulses carry `hoverTimeMs` instead, leaving
`offsetMs` undefined (`none`).  `computePerturbation` reads only
`offsetMs`; a pulse with `offsetMs = none` contributes nothing, matching
the JS NaN comparisons that never fire. -/
structure Pulse where
  offsetMs : Option ℚ
  hoverTimeMs : Option ℚ
  ampX : ℚ
  ampY : ℚ

/-- Lissajous path parameters of a standalone challenge. -/
structure PathParams where
  freqX : ℚ
  freqY : ℚ
  phase : ℝ
  padding : ℚ

/-- The `perturbation` sub-object shared by both challenge modes. -/
structure Perturbation where
  probes : List Probe
  pulses : List Pulse
  pulseHoldDuration : ℚ
  pulseReturnDuration : ℚ

/-- A stored challenge record.  `mode` is `some "embed"` for embed
challenges and `none` (undefined) for standalone ones.  `path` is `none`
for embed challenges: JS code that dereferences `path.padding` on such a
record throws, which the reconstruction models with an `Option` result.
The cognitive-task schedule is omitted: no verified claim reads it. -/
structure Challenge where
  challengeId : String
  issuedAt : ℤ
  expiresAt : ℤ
  mode : Option String
  trackingDuration : ℚ
  path : Option PathParams
  perturbation : Perturbation
  used : Bool
  usedAt : Option ℤ

/-- Decoded token payload (`makeToken({challengeId, expiresAt})`).  Signature
checking is abstracted: a request field of type `Option TokenData` is `none`
exactly when `verifyToken` returns `null`. -/
structure TokenData where
  challengeId : String
  expiresAt : ℤ

/-- `phases` object of a standalone submission (`testEnd` is never read). -/
structure Phases where
  trackingStart : ℚ
  dualtaskStart : ℚ

/-- `canvas` object of a standalone submission. -/
structure Canvas where
  width : ℚ
  height : ℚ

/-- Standalone verify request body after JSON parsing. -/
structure VerifyBody where
  token : Option TokenData
  pointer : List (ℚ × ℚ × ℚ)
  accel : List (ℚ × ℚ × ℚ × ℚ)
  phases : Option Phases
  canvas : Option Canvas
  inputMethod : Option String
  cogAnswer : Option ℚ

/-- One hover interval of an embed submission. -/
structure Hover where
  elemIdx : ℕ
  startWall : ℚ
  endWall : ℚ
  startHover : ℚ
  endHover : ℚ

/-- One observed element of an embed submission. -/
structure EmbedElement where
  index : ℕ
  rect : ℚ × ℚ × ℚ × ℚ

/-- Embed verify request body; pointer samples are
`(wallT, hoverT, x, y, elementIdx)`. -/
structure EmbedBody where
  token : Option TokenData
  pointer : List (ℚ × ℚ × ℚ × ℚ × ℕ)
  accel : List (ℚ × ℚ × ℚ × ℚ)
  hovers : List Hover
  pulseLog : List ℚ
  elements : List EmbedElement
  inputMethod : Option String
  deviceProfile : Option String

/-- The validated `rawData` object handed to `analyze` in `handleVerify`. -/
structure RawData where
  pointer : List (ℚ × ℚ × ℚ)
  accel : List (ℚ × ℚ × ℚ × ℚ)
  phases : Phases
  canvas : Canvas
  inputMethod : String
  cogAnswer : Option ℚ

/-- The validated `rawData` object handed to `analyzeEmbed`. -/
structure EmbedRawData where
  pointer : List (ℚ × ℚ × ℚ × ℚ × ℕ)
  accel : List (ℚ × ℚ × ℚ × ℚ)
  hovers : List Hover
  pulseLog : List ℚ
  elements : List EmbedElement
  inputMethod : String

/-- One reconstructed tracking sample (`reconstructTracking` output). -/
structure TrackPoint where
  t : ℚ
  x : ℚ
  y : ℚ
  targetX : ℝ
  targetY : ℝ
  pertX : ℝ
  pertY : ℝ
  isPulse : Bool
  pulseIdx : ℤ

/-- Result of `computePerturbation`. -/
structure PertOut where
  x : ℝ
  y : ℝ
  isPulse : Bool
  pulseIndex : ℤ

/-- Scorer outcome (`scoreResults` return value).  `scores` keeps, per valid
pipeline in source order, its key, sub-score and weight; the display label
and detail strings are dropped. -/
structure ScoreOutcome where
  overall : ℝ
  scores : List (String × ℝ × ℝ)
  validCount : ℕ
  verdict : String
  verdictClass : String

/-- `analyze` return value.  The early INSUFFICIENT-DATA object carries no
`sampleRate` / `sampleCount` / `inputMethod` (undefined in JS), hence the
`Option` fields. -/
structure AnalysisResult where
  overall : ℝ
  scores : List (String × ℝ × ℝ)
  verdict : String
  verdictClass : String
  validCount : ℕ
  sampleRate : Option ℚ
  sampleCount : Option ℕ
  inputMethod : Option String

/-- `analyzeEmbed` return value (modelled from the spec, §4.4–4.5 and §9). -/
structure EmbedAnalysisResult where
  overall : ℝ
  scores : List (String × ℝ × ℝ)
  verdict : String
  verdictClass : String
  validCount : ℕ
  sampleRate : ℚ
  sampleCount : ℕ
  totalHoverTime : ℚ
  uniqueElements : ℕ
  plausibility : Bool
  inputMethod : String

/-- Signed receipt payload (`makeToken` argument in the verify handlers);
the HMAC wrapper is abstracted away, the payload is what the claims read. -/
structure Receipt where
  challengeId : String
  mode : Option String
  verified : Bool
  score : ℝ
  verdict : String
  verifiedAt : ℤ

/-- JSON response of the verify endpoints, with `status` the HTTP code.
Fields absent from a given response are `none`. -/
structure VerifyResponse where
  status : ℕ
  ok : Bool
  error : Option String
  challengeId : Option String
  mode : Option String
  overall : Option ℝ
  verdict : Option String
  verdictClass : Option String
  validCount : Option ℕ
  sampleRate : Option ℚ
  sampleCount : Option ℕ
  totalHoverTime : Option ℚ
  uniqueElements : Option ℕ
  plausibility : Option Bool
  inputMethod : Option String
  receipt : Option Receipt

/-- Error response helper: `json(res, status, {ok:false, error})`. -/
def mkError (status : ℕ) (err : String) : VerifyResponse :=
  { status := status, ok := false, error := some err, challengeId := none,
    mode := none, overall := none, verdict := none, verdictClass := none,
    validCount := none, sampleRate := none, sampleCount := none,
    totalHoverTime := none, uniqueElements := none, plausibility := none,
    inputMethod := none, receipt := none }

/-- The 18-frequency probe pool `FREQ_POOL` of server.js. -/
def FREQ_POOL : List ℚ :=
  [0.3, 0.5, 0.7, 0.9, 1.1, 1.5, 1.8, 2.1, 2.5, 2.8, 3.3, 3.7, 4.3, 5.1, 5.7, 6.3, 7.1, 7.9]

/-- `pickRandom(arr, n)` shuffles a copy of `arr` with a random comparator and
takes the first `n` elements.  The shuffle outcome is supplied as the already
permuted list `shuffled` (theorems hypothesise `shuffled ~ FREQ_POOL`). -/
def pickRandom (shuffled : List ℚ) (n : ℕ) : List ℚ :=
  shuffled.take n

/-- `probeFreqsPicked = pickRandom(FREQ_POOL, 5).sort((a, b) => a - b)`, the
probe-frequency computation shared by `generateChallenge` (server.js:358) and
`generateEmbedChallenge` (server.js:500). -/
def probeFreqsPicked (shuffled : List ℚ) : List ℚ :=
  List.insertionSort (· ≤ ·) (pickRandom shuffled 5)

/-- `challenges.get(id)` on the in-memory store. -/
def findChallenge (store : List Challenge) (id : String) : Option Challenge :=
  store.find? (fun c => c.challengeId == id)

/-- In-place mutation of the record returned by `challenges.get(id)`:
rewrite the first record whose id matches. -/
def updateFirst : List Challenge → String → (Challenge → Challenge) → List Challenge
  | [], _, _ => []
  | c :: rest, id, g =>
    if c.challengeId == id then g c :: rest else c :: updateFirst rest id g

/-- `challenge.used = true` (the expiry branch sets only the flag). -/
def setUsed (c : Challenge) : Challenge :=
  { c with used := true }

/-- `challenge.used = true; challenge.usedAt = Date.now()`. -/
def setUsedAt (now : ℤ) (c : Challenge) : Challenge :=
  { c with used := true, usedAt := some now }

/-- `cleanupChallenges` eviction condition for one record at time `now`:
`rec.used && rec.usedAt && now - rec.usedAt > 10*60*1000`, or
`now > rec.expiresAt + 60*1000`.  (The numeric truthiness of `rec.usedAt`
is modelled by `Option`; the server only ever stores positive timestamps.) -/
def shouldEvict (rec : Challenge) (now : ℤ) : Bool :=
  (rec.used && (match rec.usedAt with
    | some u => decide (600000 < now - u)
    | none => false)) || decide (rec.expiresAt + 60000 < now)

/-- The background sweeper `cleanupChallenges` (server.js:967-973): deleting
entries of the `Map` while iterating is a filter. -/
def cleanupChallenges (store : List Challenge) (now : ℤ) : List Challenge :=
  store.filter (fun rec => !shouldEvict rec now)

/-- Multi-sine component of `computePerturbation` (analysis.js:227-232):
with `elapsed = (t - trackingStart)/1000`, each probe adds
`ampX·sin(2π·freq·elapsed)` to `px` and `ampY·sin(2π·freq·elapsed + phaseOffset)`
to `py`. -/
noncomputable def probeSum (t trackingStart : ℚ) (probes : List Probe) : ℝ × ℝ :=
  let elapsed : ℝ := (((t - trackingStart : ℚ) : ℝ)) / 1000
  ((probes.map (fun pr =>
      (pr.ampX : ℝ) * Real.sin (2 * Real.pi * (pr.freq : ℝ) * elapsed))).sum,
   (probes.map (fun pr =>
      (pr.ampY : ℝ) * Real.sin (2 * Real.pi * (pr.freq : ℝ) * elapsed + pr.phaseOffset))).sum)

/-- Contribution of one pulse inside the loop of `computePerturbation`
(analysis.js:235-251), as a state transformer on `(px, py, isPulse, pulseIndex)`.
A pulse without `offsetMs` (an embed pulse seen by the standalone path)
contributes nothing: in JS every comparison against its NaN absolute time is
false. -/
def pulseStep (t trackingStart hold ret : ℚ) (acc : PertOut) (ip : ℕ × Pulse) : PertOut :=
  match ip.2.offsetMs with
  | none => acc
  | some off =>
    let pulseAbsTime := trackingStart + off
    if t < pulseAbsTime then acc
    else
      let dt := t - pulseAbsTime
      if dt < hold then
        { x := acc.x + (ip.2.ampX : ℝ), y := acc.y + (ip.2.ampY : ℝ),
          isPulse := true, pulseIndex := (ip.1 : ℤ) }
      else if dt < hold + ret then
        let frac := (dt - hold) / ret
        let ease : ℚ := 1 - frac * frac
        { acc with x := acc.x + ((ip.2.ampX * ease : ℚ) : ℝ),
                   y := acc.y + ((ip.2.ampY * ease : ℚ) : ℝ) }
      else acc

/-- `computePerturbation(t, trackingStart, probes, pulses, pulseHoldDuration,
pulseReturnDuration)` (analysis.js:221-254). -/
noncomputable def computePerturbation (t trackingStart : ℚ) (probes : List Probe)
    (pulses : List Pulse) (hold ret : ℚ) : PertOut :=
  let ps := probeSum t trackingStart probes
  pulses.enum.foldl (pulseStep t trackingStart hold ret)
    { x := ps.1, y := ps.2, isPulse := false, pulseIndex := -1 }

/-- `smoothX = cx + ax·sin(2π·freqX·(pathTime/1000) + phase)`
(analysis.js:281). -/
noncomputable def smoothPathX (cx ax freqX : ℚ) (phase : ℝ) (pathTime : ℚ) : ℝ :=
  (cx : ℝ) + (ax : ℝ) * Real.sin (2 * Real.pi * (freqX : ℝ) * (((pathTime : ℚ) : ℝ) / 1000) + phase)

/-- `smoothY = cy + ay·sin(2π·freqY·(pathTime/1000))` (analysis.js:282). -/
noncomputable def smoothPathY (cy ay freqY : ℚ) (pathTime : ℚ) : ℝ :=
  (cy : ℝ) + (ay : ℝ) * Real.sin (2 * Real.pi * (freqY : ℝ) * (((pathTime : ℚ) : ℝ) / 1000))

/-- The per-sample `pathTime` of `reconstructTracking` (analysis.js:273-278):
`t - trackingStart` during tracking, `trackingDuration + (t - dualtaskStart)`
afterwards. -/
def pathTimeOf (phases : Phases) (trackingDuration t : ℚ) : ℚ :=
  if t < phases.dualtaskStart then t - phases.trackingStart
  else trackingDuration + (t - phases.dualtaskStart)

/-- `reconstructTracking(pointer, phases, challenge, canvasSize)`
(analysis.js:260-302).  Samples with `t < phases.trackingStart` are skipped.
A challenge without `path` (an embed record) makes the JS destructured
`path.padding` access throw, modelled by `none`. -/
noncomputable def reconstructTracking (pointer : List (ℚ × ℚ × ℚ)) (phases : Phases)
    (ch : Challenge) (canvas : Canvas) : Option (List TrackPoint) :=
  match ch.path with
  | none => none
  | some path =>
    let cx := canvas.width / 2
    let cy := canvas.height / 2
    let ax := canvas.width * path.padding
    let ay := canvas.height * path.padding
    some ((pointer.filter (fun s => !decide (s.1 < phases.trackingStart))).map (fun s =>
      let pathTime := pathTimeOf phases ch.trackingDuration s.1
      let sx := smoothPathX cx ax path.freqX path.phase pathTime
      let sy := smoothPathY cy ay path.freqY pathTime
      let pert := computePerturbation s.1 phases.trackingStart
        ch.perturbation.probes ch.perturbation.pulses
        ch.perturbation.pulseHoldDuration ch.perturbation.pulseReturnDuration
      { t := s.1, x := s.2.1, y := s.2.2,
        targetX := sx + pert.x, targetY := sy + pert.y,
        pertX := pert.x, pertY := pert.y,
        isPulse := pert.isPulse, pulseIdx := pert.pulseIndex }))

/-! ### Scoring (analysis.js `ScoringConfig`, `sigmoid`, `rangeScore`,
`scoreResults`).  Pipeline feature records mirror the `{valid:true, ...}`
objects; `valid:false` becomes `none`. -/

/-- Features of `analyzeTransferFunction` used by the scorer.
(`delayInRange` is `delayPlausible` in the source.) -/
structure TransferFnRes where
  hasRolloff : Bool
  hasPhaseDelay : Bool
  delayInRange : Bool
  meanDelay : Option ℝ
  coherentProbeCount : ℕ

/-- Features of `analyzeTremor` used by the scorer
(`tremorFraction` is `tremorRatio` in the source). -/
structure TremorRes where
  tremorFraction : ℝ
  peakFrequency : ℝ

/-- Features of `analyzeAccelTremor` used by the scorer. -/
structure AccelTremorRes where
  tremorFraction : ℝ
  peakFrequency : ℝ
  sampleRate : ℝ
  sampleCount : ℕ

/-- Features of `analyze1fNoise` used by the scorer. -/
structure OneOverFRes where
  slope : ℝ
  r2 : ℝ

/-- Features of `analyzeSignalDepNoise` used by the scorer. -/
structure SignalDepNoiseRes where
  slope : ℝ
  correlation : ℝ
  r2 : ℝ

/-- Features of `analyzeCrossAxis` used by the scorer. -/
structure CrossAxisRes where
  meanCoupling : ℝ
  stdCoupling : ℝ

/-- Features of `analyzePulseResponses` used by the scorer.  `detected` and
`total` stand for `responses.filter(r => r.latency !== null).length` and
`responses.length`. -/
structure PulseResponseRes where
  latencyMean : ℝ
  latencyStd : ℝ
  meanOvershoot : ℝ
  detected : ℕ
  total : ℕ

/-- Features of `analyzeCogInterference` used by the scorer; `flashEffects`
keeps each flash's relative error increase. -/
structure CogInterferenceRes where
  targetInterference : ℝ
  nonTargetInterference : ℝ
  attentionEffect : ℝ
  correctAnswer : ℚ
  userAnswer : Option ℚ
  flashEffects : List ℝ

/-- Features of `analyzeMinJerk` used by the scorer. -/
structure MinJerkRes where
  meanR2 : ℝ

/-- The `results` object assembled in `analyze` stage 4. -/
structure Results where
  transferFn : Option TransferFnRes
  tremor : Option TremorRes
  accelTremor : Option AccelTremorRes
  oneOverF : Option OneOverFRes
  signalDepNoise : Option SignalDepNoiseRes
  crossAxis : Option CrossAxisRes
  pulseResponse : Option PulseResponseRes
  cogInterference : Option CogInterferenceRes
  minJerk : Option MinJerkRes

/-- `ScoringConfig.humanTremorRatioMin` (0.005). -/
def humanTremorFractionMin : ℝ := 0.005

/-- `ScoringConfig.weights`, in source order.  Field-by-field constants so the
scorer reads them as the JS object does. -/
def weightTransferFn : ℝ := 3.0
def weightTremor : ℝ := 2.5
def weightOneOverF : ℝ := 2.0
def weightSignalDepNoise : ℝ := 2.5
def weightCrossAxis : ℝ := 2.0
def weightPulseResponse : ℝ := 3.0
def weightCogInterference : ℝ := 2.0
def weightMinJerk : ℝ := 1.5

/-- `ScoringConfig.humanThreshold`. -/
def humanThreshold : ℝ := 0.65

/-- `ScoringConfig.uncertainThreshold`. -/
def uncertainThreshold : ℝ := 0.35

/-- `sigmoid(x, center, steepness) = 1/(1 + exp(-steepness·(x - center)))`. -/
noncomputable def sigmoid (x center steepness : ℝ) : ℝ :=
  1 / (1 + Real.exp (-steepness * (x - center)))

/-- `rangeScore(value, low, high, steepness)` (analysis.js:607-609). -/
noncomputable def rangeScore (value low high steepness : ℝ) : ℝ :=
  min 1 (sigmoid value low steepness * sigmoid value high (-steepness) * 4)

/-- Transfer-function sub-score (scoreResults block 1):
`0.7·rolloff + 0.15·phaseDelay + 0.15·delayPlausible`, capped at 1. -/
def transferFnScore (tf : TransferFnRes) : ℝ :=
  min 1 ((if tf.hasRolloff then 0.7 else 0) + (if tf.hasPhaseDelay then 0.15 else 0)
    + (if tf.delayInRange then 0.15 else 0))

/-- One tremor sub-score (cursor or accelerometer, scoreResults block 2):
`min(1, ratio/(humanTremorRatioMin·3))`, plus a 0.2 bonus capped at 1 when
the peak lies in 7–13 Hz. -/
noncomputable def tremorSubScore (fraction peak : ℝ) : ℝ :=
  let base := min 1 (fraction / (humanTremorFractionMin * 3))
  if 7 ≤ peak ∧ peak ≤ 13 then min 1 (base + 0.2) else base

/-- Hybrid tremor block of `scoreResults`: valid when either source is, score
is the max of the per-source scores (0 when a source is missing). -/
noncomputable def tremorBlockScore (tr : Option TremorRes) (at_ : Option AccelTremorRes) : ℝ :=
  let cursorScore := match tr with
    | some r => tremorSubScore r.tremorFraction r.peakFrequency
    | none => 0
  let accelScore := match at_ with
    | some r => tremorSubScore r.tremorFraction r.peakFrequency
    | none => 0
  max cursorScore accelScore

/-- 1/f sub-score (block 3): `rangeScore(slope, -2.5, 0.0, 3)`. -/
noncomputable def oneOverFScore (r : OneOverFRes) : ℝ :=
  rangeScore r.slope (-2.5) 0.0 3

/-- Signal-dependent-noise sub-score (block 4):
`max(0, min(1, correlation/0.4))`. -/
noncomputable def signalDepNoiseScore (r : SignalDepNoiseRes) : ℝ :=
  max 0 (min 1 (r.correlation / 0.4))

/-- Cross-axis sub-score (block 5), touch-adjusted. -/
noncomputable def crossAxisScore (r : CrossAxisRes) (inputMethod : String) : ℝ :=
  let isTouch := inputMethod == "touch"
  let idealMax : ℝ := if isTouch then 8 else 2
  let scoreDenom : ℝ := if isTouch then 1.0 else 0.3
  min 1 (r.meanCoupling / scoreDenom) * (if r.meanCoupling < idealMax then 1 else 0.5)

/-- Pulse-response sub-score (block 6):
`0.6·rangeScore(latencyMean,120,380,0.03) + 0.4·rangeScore(latencyStd,15,180,0.08)`. -/
noncomputable def pulseResponseScore (r : PulseResponseRes) : ℝ :=
  rangeScore r.latencyMean 120 380 0.03 * 0.6 + rangeScore r.latencyStd 15 180 0.08 * 0.4

/-- `Math.max(...allEffects.map(Math.abs))` over the flash effects; the list is
nonempty for every valid cognitive result, so folding from 0 agrees with the
JS maximum of the (nonnegative) absolute values. -/
def maxAbsEffect (l : List ℝ) : ℝ :=
  (l.map (fun v => |v|)).foldl max 0

/-- Cognitive-interference sub-score (block 7). -/
noncomputable def cogInterferenceScore (ci : CogInterferenceRes) : ℝ :=
  let meanAll := (ci.flashEffects.sum) / (ci.flashEffects.length : ℝ)
  let maxI := maxAbsEffect ci.flashEffects
  let s0 := min 1 (max 0 meanAll / 0.12)
  let s1 := max s0 (min 1 (maxI / 0.25))
  let s2 := if 0.02 < ci.attentionEffect then min 1 (s1 + 0.2) else s1
  match ci.userAnswer with
  | none => s2
  | some a =>
    let s3 := min 1 (s2 + 0.1)
    if |a - ci.correctAnswer| ≤ 1 then min 1 (s3 + 0.15) else s3

/-- Minimum-jerk sub-score (block 8): `min(1, max(0, meanR2/0.6))`. -/
noncomputable def minJerkScore (r : MinJerkRes) : ℝ :=
  min 1 (max 0 (r.meanR2 / 0.6))

/-- The `(key, score, weight)` rows accumulated by `scoreResults`, in source
order; each valid pipeline contributes exactly one row. -/
noncomputable def subScoreEntries (results : Results) (inputMethod : String) :
    List (String × ℝ × ℝ) :=
  ((results.transferFn.map (fun tf =>
      ("transferFn", transferFnScore tf, weightTransferFn))).toList) ++
  (if results.tremor.isSome || results.accelTremor.isSome then
      [("tremor", tremorBlockScore results.tremor results.accelTremor, weightTremor)]
    else []) ++
  ((results.oneOverF.map (fun r =>
      ("oneOverF", oneOverFScore r, weightOneOverF))).toList) ++
  ((results.signalDepNoise.map (fun r =>
      ("signalDepNoise", signalDepNoiseScore r, weightSignalDepNoise))).toList) ++
  ((results.crossAxis.map (fun r =>
      ("crossAxis", crossAxisScore r inputMethod, weightCrossAxis))).toList) ++
  ((results.pulseResponse.map (fun r =>
      ("pulseResponse", pulseResponseScore r, weightPulseResponse))).toList) ++
  ((results.cogInterference.map (fun ci =>
      ("cogInterference", cogInterferenceScore ci, weightCogInterference))).toList) ++
  ((results.minJerk.map (fun r =>
      ("minJerk", minJerkScore r, weightMinJerk))).toList)

/-- Sum of the weights of the valid pipelines (`totalWeight` in
`scoreResults`). -/
noncomputable def totalWeightOf (results : Results) (inputMethod : String) : ℝ :=
  ((subScoreEntries results inputMethod).map (fun e => e.2.2)).sum

/-- The three-way verdict mapping at the end of `scoreResults`
(analysis.js:724-731). -/
noncomputable def verdictOf (overall : ℝ) : String × String :=
  if humanThreshold ≤ overall then
    ("BIOLOGICAL CONTROLLER DETECTED", "score-human")
  else if uncertainThreshold ≤ overall then
    ("UNCERTAIN — INCONCLUSIVE SIGNALS", "score-uncertain")
  else
    ("NON-BIOLOGICAL CONTROLLER SUSPECTED", "score-bot")

/-- `scoreResults(results, inputMethod)` (analysis.js:611-734): weighted sum
and weight accumulated over the valid pipelines, `overall` their quotient when
any weight was collected (0 otherwise), verdict from the thresholds. -/
noncomputable def scoreResults (results : Results) (inputMethod : String) : ScoreOutcome :=
  let entries := subScoreEntries results inputMethod
  let weightedSum := (entries.map (fun e => e.2.1 * e.2.2)).sum
  let totalWeight := (entries.map (fun e => e.2.2)).sum
  let overall := if 0 < totalWeight then weightedSum / totalWeight else 0
  let v := verdictOf overall
  { overall := overall, scores := entries, validCount := entries.length,
    verdict := v.1, verdictClass := v.2 }

/-- The early-return object of `analyze` when fewer than 50 samples fall at or
after `trackingStart` (analysis.js:758-760); `sampleRate`, `sampleCount` and
`inputMethod` are absent (undefined) on this path. -/
def insufficientDataResult : AnalysisResult :=
  { overall := 0, scores := [], verdict := "INSUFFICIENT DATA",
    verdictClass := "score-bot", validCount := 0,
    sampleRate := none, sampleCount := none, inputMethod := none }

/-- `analyze(rawData, challenge)` (analysis.js:754-791).  Stage 1 and the
insufficient-data guard are embedded; the eight pipelines and the final
assembly (stages 2-5) are abstracted into `rest`, which receives the
reconstructed tracking — the scorer they end in is embedded separately as
`scoreResults`.  A `none` result models a thrown exception. -/
noncomputable def analyze (rest : List TrackPoint → RawData → Challenge → Option AnalysisResult)
    (rawData : RawData) (challenge : Challenge) : Option AnalysisResult :=
  match reconstructTracking rawData.pointer rawData.phases challenge rawData.canvas with
  | none => none
  | some tracking =>
    if tracking.length < 50 then some insufficientDataResult
    else rest tracking rawData challenge

/-- `Number(result.overall.toFixed(3))`: round to 3 decimal places. -/
noncomputable def roundTo3 (x : ℝ) : ℝ :=
  ((round (x * 1000) : ℤ) : ℝ) / 1000

/-- Standalone receipt payload built in `handleVerify` (server.js:640-646):
`verified` is `result.overall >= 0.65`. -/
noncomputable def mkReceipt (c : Challenge) (result : AnalysisResult) (now : ℤ) : Receipt :=
  { challengeId := c.challengeId, mode := none,
    verified := decide (0.65 ≤ result.overall),
    score := roundTo3 result.overall, verdict := result.verdict, verifiedAt := now }

/-- Embed receipt payload built in `handleEmbedVerify` (server.js:764-771):
`verified` is `result.overall >= 0.60` and the payload carries `mode:"embed"`. -/
noncomputable def mkEmbedReceipt (c : Challenge) (result : EmbedAnalysisResult) (now : ℤ) : Receipt :=
  { challengeId := c.challengeId, mode := some "embed",
    verified := decide (0.60 ≤ result.overall),
    score := roundTo3 result.overall, verdict := result.verdict, verifiedAt := now }

/-- The 200 response of `handleVerify` (server.js:671-683). -/
def successResponse (c : Challenge) (result : AnalysisResult) (receipt : Receipt) :
    VerifyResponse :=
  { status := 200, ok := true, error := none, challengeId := some c.challengeId,
    mode := none, overall := some result.overall, verdict := some result.verdict,
    verdictClass := some result.verdictClass, validCount := some result.validCount,
    sampleRate := result.sampleRate, sampleCount := result.sampleCount,
    totalHoverTime := none, uniqueElements := none, plausibility := none,
    inputMethod := result.inputMethod, receipt := some receipt }

/-- The 200 response of `handleEmbedVerify` (server.js:801-817). -/
def embedSuccessResponse (c : Challenge) (result : EmbedAnalysisResult) (receipt : Receipt) :
    VerifyResponse :=
  { status := 200, ok := true, error := none, challengeId := some c.challengeId,
    mode := some "embed", overall := some result.overall, verdict := some result.verdict,
    verdictClass := some result.verdictClass, validCount := some result.validCount,
    sampleRate := some result.sampleRate, sampleCount := some result.sampleCount,
    totalHoverTime := some result.totalHoverTime,
    uniqueElements := some result.uniqueElements,
    plausibility := some result.plausibility,
    inputMethod := some result.inputMethod, receipt := some receipt }

/-- The `rawData` object `handleVerify` assembles from a validated body
(server.js:622-629). -/
def rawDataOf (body : VerifyBody) (phases : Phases) (canvas : Canvas) : RawData :=
  { pointer := body.pointer, accel := body.accel, phases := phases, canvas := canvas,
    inputMethod := body.inputMethod.getD "unknown", cogAnswer := body.cogAnswer }

/-- The `rawData` object `handleEmbedVerify` assembles from a validated body
(server.js:746-753). -/
def embedRawDataOf (body : EmbedBody) : EmbedRawData :=
  { pointer := body.pointer, accel := body.accel, hovers := body.hovers,
    pulseLog := body.pulseLog, elements := body.elements,
    inputMethod := body.inputMethod.getD "unknown" }

/-- `handleVerify` (server.js:580-684), parametric in the imported `analyze`
function.  Order of checks, as in the source: token signature, existence,
used, expiry (which marks `used`), then mark `used`/`usedAt`, then the three
shape checks, then analysis.  JS numeric truthiness makes a zero
`trackingStart`/`dualtaskStart`/`width`/`height` count as missing. -/
noncomputable def handleVerify
    (analyzeFn : RawData → Challenge → Option AnalysisResult)
    (store : List Challenge) (now : ℤ) (body : VerifyBody) :
    VerifyResponse × List Challenge :=
  match body.token with
  | none => (mkError 401 "invalid_token", store)
  | some tokenData =>
    match findChallenge store tokenData.challengeId with
    | none => (mkError 404 "challenge_not_found", store)
    | some challenge =>
      if challenge.used then (mkError 409 "challenge_already_used", store)
      else if challenge.expiresAt < now then
        (mkError 410 "challenge_expired", updateFirst store tokenData.challengeId setUsed)
      else
        let store1 := updateFirst store tokenData.challengeId (setUsedAt now)
        if body.pointer.length < 50 then (mkError 400 "insufficient_pointer_data", store1)
        else
          match body.phases with
          | none => (mkError 400 "missing_phases", store1)
          | some phases =>
            if phases.trackingStart = 0 ∨ phases.dualtaskStart = 0 then
              (mkError 400 "missing_phases", store1)
            else
              match body.canvas with
              | none => (mkError 400 "missing_canvas", store1)
              | some canvas =>
                if canvas.width = 0 ∨ canvas.height = 0 then
                  (mkError 400 "missing_canvas", store1)
                else
                  match analyzeFn (rawDataOf body phases canvas) (setUsedAt now challenge) with
                  | none => (mkError 500 "analysis_failed", store1)
                  | some result =>
                    (successResponse challenge result (mkReceipt challenge result now), store1)

/-- `handleEmbedVerify` (server.js:704-818), parametric in the imported
`analyzeEmbed` function.  The mode check sits between existence and the used
check; `used`/`usedAt` are again set before the shape checks. -/
noncomputable def handleEmbedVerify
    (analyzeEmbedFn : EmbedRawData → Challenge → Option EmbedAnalysisResult)
    (store : List Challenge) (now : ℤ) (body : EmbedBody) :
    VerifyResponse × List Challenge :=
  match body.token with
  | none => (mkError 401 "invalid_token", store)
  | some tokenData =>
    match findChallenge store tokenData.challengeId with
    | none => (mkError 404 "challenge_not_found", store)
    | some challenge =>
      if challenge.mode ≠ some "embed" then (mkError 400 "wrong_challenge_mode", store)
      else if challenge.used then (mkError 409 "challenge_already_used", store)
      else if challenge.expiresAt < now then
        (mkError 410 "challenge_expired", updateFirst store tokenData.challengeId setUsed)
      else
        let store1 := updateFirst store tokenData.challengeId (setUsedAt now)
        if body.pointer.length < 30 then (mkError 400 "insufficient_pointer_data", store1)
        else if body.elements.length < 1 then (mkError 400 "missing_elements", store1)
        else
          match analyzeEmbedFn (embedRawDataOf body) (setUsedAt now challenge) with
          | none => (mkError 500 "analysis_failed", store1)
          | some result =>
            (embedSuccessResponse challenge result (mkEmbedReceipt challenge result now), store1)

/-- The first shape-validation failure of `handleVerify` for a given body
(source order: pointer length, phases, canvas), `none` when the shape checks
pass. -/
def standaloneShapeError (body : VerifyBody) : Option String :=
  if body.pointer.length < 50 then some "insufficient_pointer_data"
  else
    match body.phases with
    | none => some "missing_phases"
    | some phases =>
      if phases.trackingStart = 0 ∨ phases.dualtaskStart = 0 then some "missing_phases"
      else
        match body.canvas with
        | none => some "missing_canvas"
        | some canvas =>
          if canvas.width = 0 ∨ canvas.height = 0 then some "missing_canvas" else none

/-- The first shape-validation failure of `handleEmbedVerify` for a given
body (pointer length, then elements). -/
def embedShapeError (body : EmbedBody) : Option String :=
  if body.pointer.length < 30 then some "insufficient_pointer_data"
  else if body.elements.length < 1 then some "missing_elements"
  else none

/-- Modelled from the spec: `analyzeEmbed` is required by server.js from
analysis.js but the embed analysis engine is not among the sources; only its
caller `handleEmbedVerify` is.  Per §4.4-§4.5 it reconstructs the hover-time
perturbations, runs the embed pipelines (abstracted here into `rest`, as for
`analyze`) and scores them with the shared scorer; per §9 the plausibility
flag is `uniqueElements ≥ 2 ∧ totalHoverTime ≥ minHover ∧ pulseLog length ≥ 2`
(the device-specific `minHover` is taken as 3000 ms).  Every pipeline reports
failure as `{valid:false}` rather than throwing (§7), so the function is
total. -/
noncomputable def analyzeEmbed (rest : EmbedRawData → Challenge → Results)
    (rawData : EmbedRawData) (challenge : Challenge) : Option EmbedAnalysisResult :=
  let totalHoverTime := (rawData.hovers.map (fun h => h.endHover - h.startHover)).sum
  let uniqueElements := (rawData.pointer.map (fun s => s.2.2.2.2)).dedup.length
  let avgDt : ℚ :=
    if 2 ≤ rawData.pointer.length then
      ((rawData.pointer.map (fun s => s.1)).getLast?.getD 0
        - (rawData.pointer.map (fun s => s.1)).head?.getD 0)
        / ((rawData.pointer.length : ℚ) - 1)
    else 0
  let sampleRate : ℚ := if 0 < avgDt then 1000 / avgDt else 60
  let outcome := scoreResults (rest rawData challenge) rawData.inputMethod
  some
    { overall := outcome.overall, scores := outcome.scores,
      verdict := outcome.verdict, verdictClass := outcome.verdictClass,
      validCount := outcome.validCount, sampleRate := sampleRate,
      sampleCount := rawData.pointer.length, totalHoverTime := totalHoverTime,
      uniqueElements := uniqueElements,
      plausibility := decide (2 ≤ uniqueElements) && decide (3000 ≤ totalHoverTime)
        && decide (2 ≤ rawData.pulseLog.length),
      inputMethod := rawData.inputMethod }

/-- A used challenge record shared by the claim-C1 witness: an embed-mode
challenge so that both endpoints accept its id. -/
def usedChallengeW : Challenge :=
  { challengeId := "a", issuedAt := 0, expiresAt := 1000000, mode := some "embed",
    trackingDuration := 20000, path := none,
    perturbation := ⟨[], [], 600, 200⟩,
    used := true, usedAt := some 5 }

/-- Standalone body carrying a valid token for `usedChallengeW`. -/
def usedBodyW : VerifyBody :=
  { token := some { challengeId := "a", expiresAt := 1000000 }, pointer := [],
    accel := [], phases := none, canvas := none, inputMethod := none, cogAnswer := none }

/-- Embed body carrying a valid token for `usedChallengeW`. -/
def usedEmbedBodyW : EmbedBody :=
  { token := some { challengeId := "a", expiresAt := 1000000 }, pointer := [],
    accel := [], hovers := [], pulseLog := [], elements := [],
    inputMethod := none, deviceProfile := none }

/-- An unused, unexpired standalone challenge for the claim-C2 counterexample. -/
def unusedChallengeC2 : Challenge :=
  { challengeId := "b", issuedAt := 0, expiresAt := 1000, mode := none,
    trackingDuration := 20000, path := none,
    perturbation := ⟨[], [], 600, 200⟩,
    used := false, usedAt := none }

/-- A shape-invalid standalone body (empty pointer array) with a valid token
for `unusedChallengeC2`. -/
def badShapeBodyC2 : VerifyBody :=
  { token := some { challengeId := "b", expiresAt := 1000 }, pointer := [],
    accel := [], phases := some { trackingStart := 1000, dualtaskStart := 11000 },
    canvas := some { width := 100, height := 100 },
    inputMethod := none, cogAnswer := none }

/-- A well-formed standalone body (50 pointer samples, phases, canvas) with
the same token. -/
def goodShapeBodyC2 : VerifyBody :=
  { token := some { challengeId := "b", expiresAt := 1000 },
    pointer := List.replicate 50 ((0 : ℚ), (0 : ℚ), (0 : ℚ)),
    accel := [], phases := some { trackingStart := 1000, dualtaskStart := 11000 },
    canvas := some { width := 100, height := 100 },
    inputMethod := none, cogAnswer := none }

/-- A used challenge the sweeper evicts before ten minutes have passed since
`usedAt`, because its `expiresAt + 60 s` bound hits first. -/
def earlyEvictedC8 : Challenge :=
  { challengeId := "d", issuedAt := 0, expiresAt := 0, mode := none,
    trackingDuration := 20000, path := none,
    perturbation := ⟨[], [], 600, 200⟩,
    used := true, usedAt := some 10000 }

/-- A used challenge inside both retention bounds at `now = 70000`. -/
def retainedC8 : Challenge :=
  { challengeId := "k", issuedAt := 0, expiresAt := 100000, mode := none,
    trackingDuration := 20000, path := none,
    perturbation := ⟨[], [], 600, 200⟩,
    used := true, usedAt := some 60000 }

/-- No-pipeline-valid result object. -/
def allInvalidResults : Results :=
  { transferFn := none, tremor := none, accelTremor := none, oneOverF := none,
    signalDepNoise := none, crossAxis := none, pulseResponse := none,
    cogInterference := none, minJerk := none }

/-- A transfer-function-only result combination for the C4 witness. -/
def transferOnlyResults : Results :=
  { transferFn := some ⟨true, true, true, some 100, 3⟩,
    tremor := none, accelTremor := none, oneOverF := none,
    signalDepNoise := none, crossAxis := none, pulseResponse := none,
    cogInterference := none, minJerk := none }

/-- An unused embed challenge for the C3 witness. -/
def embedChallengeC3 : Challenge :=
  { challengeId := "c", issuedAt := 0, expiresAt := 1000, mode := some "embed",
    trackingDuration := 0, path := none,
    perturbation := ⟨[], [], 500, 150⟩, used := false, usedAt := none }

/-- A well-formed embed body (30 pointer samples, one element) for the C3
witness. -/
def embedBodyC3 : EmbedBody :=
  { token := some { challengeId := "c", expiresAt := 1000 },
    pointer := List.replicate 30 ((0 : ℚ), (0 : ℚ), (0 : ℚ), (0 : ℚ), (0 : ℕ)),
    accel := [], hovers := [], pulseLog := [], elements := [⟨0, (0, 0, 0, 0)⟩],
    inputMethod := none, deviceProfile := none }

/-- An unused standalone challenge for the C9 witness. -/
def challengeC9 : Challenge :=
  { challengeId := "f", issuedAt := 0, expiresAt := 1000, mode := none,
    trackingDuration := 20000, path := some ⟨0.15, 0.1, 0, 0.3⟩,
    perturbation := ⟨[], [], 600, 200⟩, used := false, usedAt := none }

/-- A standalone body with 50 raw samples all timestamped before
`trackingStart = 1000`, for the C9 witness. -/
def bodyC9 : VerifyBody :=
  { token := some { challengeId := "f", expiresAt := 1000 },
    pointer := List.replicate 50 ((0 : ℚ), (0 : ℚ), (0 : ℚ)),
    accel := [], phases := some { trackingStart := 1000, dualtaskStart := 11000 },
    canvas := some { width := 100, height := 100 },
    inputMethod := none, cogAnswer := none }

/-! ### Store lemmas -/

theorem findChallenge_eq_id {store : List Challenge} {id : String} {c : Challenge}
    (h : findChallenge store id = some c) : c.challengeId = id := by
  have hp := List.find?_some h
  simpa [beq_iff_eq] using hp

theorem findChallenge_updateFirst_self {store : List Challenge} {id : String} {c : Challenge}
    (g : Challenge → Challenge) (hg : ∀ x, (g x).challengeId = x.challengeId)
    (h : findChallenge store id = some c) :
    findChallenge (updateFirst store id g) id = some (g c) := by
  induction store with
  | nil => simp [findChallenge] at h
  | cons hd tl ih =>
    by_cases hhd : hd.challengeId = id
    · have h1 : findChallenge (hd :: tl) id = some hd := by
        simp [findChallenge, List.find?_cons_of_pos, hhd]
      rw [h1] at h
      cases h
      simp [updateFirst, hhd, findChallenge, List.find?_cons_of_pos, hg]
    · have h1 : findChallenge (hd :: tl) id = findChallenge tl id := by
        simp [findChallenge, List.find?_cons_of_neg, hhd]
      rw [h1] at h
      have h2 := ih h
      simpa [updateFirst, hhd, findChallenge, List.find?_cons_of_neg] using h2

theorem findChallenge_updateFirst_ne {store : List Challenge} {id tid : String}
    (g : Challenge → Challenge) (hg : ∀ x, (g x).challengeId = x.challengeId)
    (hne : id ≠ tid) :
    findChallenge (updateFirst store tid g) id = findChallenge store id := by
  induction store with
  | nil => simp [findChallenge, updateFirst]
  | cons hd tl ih =>
    by_cases hhd : hd.challengeId = tid
    · have hid : ¬ hd.challengeId = id := by
        rw [hhd]; exact fun h => hne h.symm
      have hid2 : ¬ (g hd).challengeId = id := by rw [hg]; exact hid
      have e1 : updateFirst (hd :: tl) tid g = g hd :: tl := by
        simp [updateFirst, hhd]
      rw [e1]
      show List.find? _ (g hd :: tl) = List.find? _ (hd :: tl)
      rw [List.find?_cons_of_neg _ (by simpa using hid2),
        List.find?_cons_of_neg _ (by simpa using hid)]
    · have e1 : updateFirst (hd :: tl) tid g = hd :: updateFirst tl tid g := by
        simp [updateFirst, hhd]
      rw [e1]
      by_cases hid : hd.challengeId = id
      · show List.find? _ (hd :: _) = List.find? _ (hd :: tl)
        rw [List.find?_cons_of_pos _ (by simpa using hid),
          List.find?_cons_of_pos _ (by simpa using hid)]
      · show List.find? _ (hd :: _) = List.find? _ (hd :: tl)
        rw [List.find?_cons_of_neg _ (by simpa using hid),
          List.find?_cons_of_neg _ (by simpa using hid)]
        exact ih

theorem handleVerify_snd (f : RawData → Challenge → Option AnalysisResult)
    (store : List Challenge) (now : ℤ) (body : VerifyBody) :
    (handleVerify f store now body).2 = store ∨
    ∃ td c, body.token = some td ∧ findChallenge store td.challengeId = some c ∧
      c.used = false ∧
      ((handleVerify f store now body).2 = updateFirst store td.challengeId setUsed ∨
       (handleVerify f store now body).2 = updateFirst store td.challengeId (setUsedAt now)) := by
  rcases htok : body.token with _ | td
  · left; simp [handleVerify, htok]
  · rcases hf : findChallenge store td.challengeId with _ | c
    · left; simp [handleVerify, htok, hf]
    · rcases hu : c.used
      · right
        refine ⟨td, c, rfl, hf, hu, ?_⟩
        by_cases he : c.expiresAt < now
        · left; simp [handleVerify, htok, hf, hu, he]
        · right
          simp only [handleVerify, htok, hf, hu, he]
          repeat' split
          all_goals simp_all
      · left; simp [handleVerify, htok, hf, hu]

theorem handleEmbedVerify_snd (g : EmbedRawData → Challenge → Option EmbedAnalysisResult)
    (store : List Challenge) (now : ℤ) (body : EmbedBody) :
    (handleEmbedVerify g store now body).2 = store ∨
    ∃ td c, body.token = some td ∧ findChallenge store td.challengeId = some c ∧
      c.used = false ∧
      ((handleEmbedVerify g store now body).2 = updateFirst store td.challengeId setUsed ∨
       (handleEmbedVerify g store now body).2 = updateFirst store td.challengeId (setUsedAt now)) := by
  rcases htok : body.token with _ | td
  · left; simp [handleEmbedVerify, htok]
  · rcases hf : findChallenge store td.challengeId with _ | c
    · left; simp [handleEmbedVerify, htok, hf]
    · by_cases hm : c.mode = some "embed"
      · rcases hu : c.used
        · right
          refine ⟨td, c, rfl, hf, hu, ?_⟩
          by_cases he : c.expiresAt < now
          · left; simp [handleEmbedVerify, htok, hf, hm, hu, he]
          · right
            simp only [handleEmbedVerify, htok, hf, hm, hu, he]
            repeat' split
            all_goals simp_all
        · left; simp [handleEmbedVerify, htok, hf, hm, hu]
      · left; simp [handleEmbedVerify, htok, hf, hm]

theorem setUsed_challengeId (x : Challenge) : (setUsed x).challengeId = x.challengeId := rfl

theorem setUsedAt_challengeId (now : ℤ) (x : Challenge) :
    (setUsedAt now x).challengeId = x.challengeId := rfl

theorem handleVerify_preserves_used (f : RawData → Challenge → Option AnalysisResult)
    (store : List Challenge) (now : ℤ) (body : VerifyBody) {id : String} {c : Challenge}
    (hfind : findChallenge store id = some c) (hused : c.used = true) :
    findChallenge (handleVerify f store now body).2 id = some c := by
  rcases handleVerify_snd f store now body with h | ⟨td, c2, _, hf2, hu2, h | h⟩
  · rw [h, hfind]
  · by_cases hid : id = td.challengeId
    · subst hid; rw [hfind] at hf2; cases hf2; rw [hused] at hu2; cases hu2
    · rw [h, findChallenge_updateFirst_ne setUsed setUsed_challengeId hid, hfind]
  · by_cases hid : id = td.challengeId
    · subst hid; rw [hfind] at hf2; cases hf2; rw [hused] at hu2; cases hu2
    · rw [h, findChallenge_updateFirst_ne (setUsedAt now) (setUsedAt_challengeId now) hid, hfind]

theorem handleEmbedVerify_preserves_used (g : EmbedRawData → Challenge → Option EmbedAnalysisResult)
    (store : List Challenge) (now : ℤ) (body : EmbedBody) {id : String} {c : Challenge}
    (hfind : findChallenge store id = some c) (hused : c.used = true) :
    findChallenge (handleEmbedVerify g store now body).2 id = some c := by
  rcases handleEmbedVerify_snd g store now body with h | ⟨td, c2, _, hf2, hu2, h | h⟩
  · rw [h, hfind]
  · by_cases hid : id = td.challengeId
    · subst hid; rw [hfind] at hf2; cases hf2; rw [hused] at hu2; cases hu2
    · rw [h, findChallenge_updateFirst_ne setUsed setUsed_challengeId hid, hfind]
  · by_cases hid : id = td.challengeId
    · subst hid; rw [hfind] at hf2; cases hf2; rw [hused] at hu2; cases hu2
    · rw [h, findChallenge_updateFirst_ne (setUsedAt now) (setUsedAt_challengeId now) hid, hfind]

/-! ### Claims -/

/-- **C1.** For every challenge the `used` flag becomes true at most once: for
an already-used record, a verify request presenting a valid token for it —
standalone or embed endpoint — receives HTTP 409 with error code
`challenge_already_used` and leaves the whole store (hence the record)
unchanged; moreover no verify request whatsoever alters a used record. -/
theorem C1_second_verify_conflict
    (f : RawData → Challenge → Option AnalysisResult)
    (g : EmbedRawData → Challenge → Option EmbedAnalysisResult)
    (store : List Challenge) (now : ℤ) (body : VerifyBody) (ebody : EmbedBody)
    (td : TokenData) (c : Challenge)
    (hfind : findChallenge store td.challengeId = some c) (hused : c.used = true) :
    (body.token = some td →
      handleVerify f store now body = (mkError 409 "challenge_already_used", store)) ∧
    (ebody.token = some td → c.mode = some "embed" →
      handleEmbedVerify g store now ebody = (mkError 409 "challenge_already_used", store)) ∧
    (∀ body2 : VerifyBody,
      findChallenge (handleVerify f store now body2).2 td.challengeId = some c) ∧
    (∀ ebody2 : EmbedBody,
      findChallenge (handleEmbedVerify g store now ebody2).2 td.challengeId = some c) := by
  refine ⟨?_, ?_, ?_, ?_⟩
  · intro htok
    simp [handleVerify, htok, hfind, hused]
  · intro htok hm
    simp [handleEmbedVerify, htok, hfind, hm, hused]
  · intro body2; exact handleVerify_preserves_used f store now body2 hfind hused
  · intro ebody2; exact handleEmbedVerify_preserves_used g store now ebody2 hfind hused

/-- Witness for C1 at a concrete store and bodies. -/
theorem C1_second_verify_conflict_witness :
    handleVerify (fun _ _ => none) [usedChallengeW] 0 usedBodyW
      = (mkError 409 "challenge_already_used", [usedChallengeW]) ∧
    handleEmbedVerify (fun _ _ => none) [usedChallengeW] 0 usedEmbedBodyW
      = (mkError 409 "challenge_already_used", [usedChallengeW]) := by
  have h := C1_second_verify_conflict (fun _ _ => none) (fun _ _ => none)
    [usedChallengeW] 0 usedBodyW usedEmbedBodyW
    { challengeId := "a", expiresAt := 1000000 } usedChallengeW rfl rfl
  exact ⟨h.1 rfl, h.2.1 rfl rfl⟩

/-- **C2 (counterexample).** A verify request that fails shape validation
(pointer array shorter than 50) is answered with the specific error, but the
referenced challenge IS consumed: its `used` flag is true afterwards (`used`
is set before the shape checks, server.js:607-612), and a later well-formed
verify with the same token gets 409 instead of succeeding — refuting the claim
at this input. -/
theorem C2_counterexample :
    (handleVerify (fun _ _ => none) [unusedChallengeC2] 0 badShapeBodyC2).1
      = mkError 400 "insufficient_pointer_data" ∧
    findChallenge (handleVerify (fun _ _ => none) [unusedChallengeC2] 0 badShapeBodyC2).2 "b"
      = some (setUsedAt 0 unusedChallengeC2) ∧
    (setUsedAt 0 unusedChallengeC2).used = true ∧
    (handleVerify (fun _ _ => none)
        (handleVerify (fun _ _ => none) [unusedChallengeC2] 0 badShapeBodyC2).2
        0 goodShapeBodyC2).1
      = mkError 409 "challenge_already_used" := by
  refine ⟨rfl, rfl, rfl, rfl⟩

/-- **C2 (amended).** For every verify request that passes token validation on
an unused, unexpired challenge but fails shape validation (pointer array
shorter than 50 standalone / 30 embed, phases or canvas absent standalone,
elements absent embed), the specific error is returned with HTTP 400, but the
challenge IS consumed: `used` and `usedAt` are set before the shape checks, so
a later well-formed verify with the same token receives 409. -/
theorem C2_amended_shape_failure_consumes
    (f : RawData → Challenge → Option AnalysisResult)
    (g : EmbedRawData → Challenge → Option EmbedAnalysisResult)
    (store : List Challenge) (now : ℤ) (body : VerifyBody) (ebody : EmbedBody)
    (td : TokenData) (c : Challenge)
    (hfind : findChallenge store td.challengeId = some c) (hused : c.used = false)
    (hexp : ¬ c.expiresAt < now) :
    (∀ e, body.token = some td → standaloneShapeError body = some e →
      handleVerify f store now body
        = (mkError 400 e, updateFirst store td.challengeId (setUsedAt now)) ∧
      findChallenge (handleVerify f store now body).2 td.challengeId
        = some (setUsedAt now c)) ∧
    (∀ e, ebody.token = some td → c.mode = some "embed" → embedShapeError ebody = some e →
      handleEmbedVerify g store now ebody
        = (mkError 400 e, updateFirst store td.challengeId (setUsedAt now)) ∧
      findChallenge (handleEmbedVerify g store now ebody).2 td.challengeId
        = some (setUsedAt now c)) := by
  have hself : findChallenge (updateFirst store td.challengeId (setUsedAt now)) td.challengeId
      = some (setUsedAt now c) :=
    findChallenge_updateFirst_self (setUsedAt now) (setUsedAt_challengeId now) hfind
  constructor
  · intro e htok hshape
    by_cases hp : body.pointer.length < 50
    · simp only [standaloneShapeError, if_pos hp, Option.some.injEq] at hshape
      subst hshape
      have hEq : handleVerify f store now body
          = (mkError 400 "insufficient_pointer_data",
             updateFirst store td.challengeId (setUsedAt now)) := by
        simp [handleVerify, htok, hfind, hused, hexp, hp]
      exact ⟨hEq, by rw [hEq]; exact hself⟩
    · rcases hph : body.phases with _ | ph
      · simp only [standaloneShapeError, if_neg hp, hph, Option.some.injEq] at hshape
        subst hshape
        have hEq : handleVerify f store now body
            = (mkError 400 "missing_phases",
               updateFirst store td.challengeId (setUsedAt now)) := by
          simp [handleVerify, htok, hfind, hused, hexp, hp, hph]
        exact ⟨hEq, by rw [hEq]; exact hself⟩
      · by_cases hz : ph.trackingStart = 0 ∨ ph.dualtaskStart = 0
        · simp only [standaloneShapeError, if_neg hp, hph, if_pos hz, Option.some.injEq] at hshape
          subst hshape
          have hEq : handleVerify f store now body
              = (mkError 400 "missing_phases",
                 updateFirst store td.challengeId (setUsedAt now)) := by
            simp [handleVerify, htok, hfind, hused, hexp, hp, hph, hz]
          exact ⟨hEq, by rw [hEq]; exact hself⟩
        · rcases hcv : body.canvas with _ | cv
          · simp only [standaloneShapeError, if_neg hp, hph, if_neg hz, hcv,
              Option.some.injEq] at hshape
            subst hshape
            have hEq : handleVerify f store now body
                = (mkError 400 "missing_canvas",
                   updateFirst store td.challengeId (setUsedAt now)) := by
              simp [handleVerify, htok, hfind, hused, hexp, hp, hph, hz, hcv]
            exact ⟨hEq, by rw [hEq]; exact hself⟩
          · by_cases hz2 : cv.width = 0 ∨ cv.height = 0
            · simp only [standaloneShapeError, if_neg hp, hph, if_neg hz, hcv, if_pos hz2,
                Option.some.injEq] at hshape
              subst hshape
              have hEq : handleVerify f store now body
                  = (mkError 400 "missing_canvas",
                     updateFirst store td.challengeId (setUsedAt now)) := by
                simp [handleVerify, htok, hfind, hused, hexp, hp, hph, hz, hcv, hz2]
              exact ⟨hEq, by rw [hEq]; exact hself⟩
            · simp [standaloneShapeError, if_neg hp, hph, if_neg hz, hcv, if_neg hz2] at hshape
  · intro e htok hm hshape
    by_cases hp : ebody.pointer.length < 30
    · simp only [embedShapeError, if_pos hp, Option.some.injEq] at hshape
      subst hshape
      have hEq : handleEmbedVerify g store now ebody
          = (mkError 400 "insufficient_pointer_data",
             updateFirst store td.challengeId (setUsedAt now)) := by
        simp [handleEmbedVerify, htok, hfind, hm, hused, hexp, hp]
      exact ⟨hEq, by rw [hEq]; exact hself⟩
    · by_cases hel : ebody.elements.length < 1
      · simp only [embedShapeError, if_neg hp, if_pos hel, Option.some.injEq] at hshape
        subst hshape
        have hEq : handleEmbedVerify g store now ebody
            = (mkError 400 "missing_elements",
               updateFirst store td.challengeId (setUsedAt now)) := by
          simp [handleEmbedVerify, htok, hfind, hm, hused, hexp, hp, hel]
        exact ⟨hEq, by rw [hEq]; exact hself⟩
      · simp [embedShapeError, if_neg hp, if_neg hel] at hshape

/-- Witness for the amended C2 at a concrete store and body: the empty-pointer
body yields the 400 error and the consumed record. -/
theorem C2_amended_shape_failure_consumes_witness :
    handleVerify (fun _ _ => none) [unusedChallengeC2] 0 badShapeBodyC2
      = (mkError 400 "insufficient_pointer_data", [setUsedAt 0 unusedChallengeC2]) ∧
    findChallenge (handleVerify (fun _ _ => none) [unusedChallengeC2] 0 badShapeBodyC2).2 "b"
      = some (setUsedAt 0 unusedChallengeC2) := by
  have h := C2_amended_shape_failure_consumes (fun _ _ => none) (fun _ _ => none)
    [unusedChallengeC2] 0 badShapeBodyC2 usedEmbedBodyW
    { challengeId := "b", expiresAt := 1000 } unusedChallengeC2 rfl rfl (by decide)
  have h2 := h.1 "insufficient_pointer_data" rfl rfl
  exact ⟨h2.1, h2.2⟩

/-- **C7.** For every outcome of the random shuffle (any permutation of the
pool), the five probe frequencies produced by the computation shared by
`generateChallenge` and `generateEmbedChallenge` are strictly ascending —
hence pairwise distinct — and all five come from the fixed 18-element
`FREQ_POOL`. -/
theorem C7_probe_freqs_ascending (shuffled : List ℚ)
    (hperm : shuffled.Perm FREQ_POOL) :
    (probeFreqsPicked shuffled).Sorted (· < ·) ∧
    (probeFreqsPicked shuffled).length = 5 ∧
    ∀ f ∈ probeFreqsPicked shuffled, f ∈ FREQ_POOL := by
  have hpool : FREQ_POOL.Nodup := by
    simp only [FREQ_POOL, List.nodup_cons, List.mem_cons, List.mem_singleton,
      List.not_mem_nil, List.nodup_nil]
    norm_num
  have hshuf : shuffled.Nodup := hperm.nodup_iff.mpr hpool
  have htake : (shuffled.take 5).Nodup := hshuf.sublist (List.take_sublist 5 shuffled)
  have hsortperm : (probeFreqsPicked shuffled).Perm (shuffled.take 5) :=
    List.perm_insertionSort (· ≤ ·) (shuffled.take 5)
  have hsorted : (probeFreqsPicked shuffled).Sorted (· ≤ ·) :=
    List.sorted_insertionSort (· ≤ ·) (shuffled.take 5)
  have hnd : (probeFreqsPicked shuffled).Nodup := hsortperm.nodup_iff.mpr htake
  refine ⟨?_, ?_, ?_⟩
  · exact (hsorted.and hnd).imp (fun hab => lt_of_le_of_ne hab.1 hab.2)
  · have hlen : shuffled.length = 18 := by
      rw [hperm.length_eq]; rfl
    rw [hsortperm.length_eq, List.length_take, hlen]
    decide
  · intro f hf
    have h1 : f ∈ shuffled.take 5 := hsortperm.mem_iff.mp hf
    have h2 : f ∈ shuffled := List.take_subset 5 shuffled h1
    exact hperm.mem_iff.mp h2

/-- Witness for C7: the identity shuffle. -/
theorem C7_probe_freqs_ascending_witness :
    (probeFreqsPicked FREQ_POOL).Sorted (· < ·) ∧
    (probeFreqsPicked FREQ_POOL).length = 5 ∧
    ∀ f ∈ probeFreqsPicked FREQ_POOL, f ∈ FREQ_POOL :=
  C7_probe_freqs_ascending FREQ_POOL (List.Perm.refl FREQ_POOL)

/-- **C8 (counterexample).** A used challenge (`usedAt = 10000`) is evicted by
the sweeper at `now = 70000` — only 60 s after use, well before the claimed
10 minutes — because `now > expiresAt + 60000` also deletes used records
(server.js:971). -/
theorem C8_counterexample :
    earlyEvictedC8.used = true ∧
    earlyEvictedC8.usedAt = some 10000 ∧
    cleanupChallenges [earlyEvictedC8] 70000 = [] ∧
    (70000 : ℤ) - 10000 < 600000 := by
  refine ⟨rfl, rfl, rfl, by decide⟩

/-- **C8 (amended).** The sweeper evicts an unused challenge once `now`
exceeds `expiresAt + 60 s`.  A used challenge is evicted once ten minutes
have passed since `usedAt` **or** once `now` exceeds `expiresAt + 60 s`,
whichever comes first; it stays queryable only while both bounds hold, so a
used challenge can be removed earlier than ten minutes after use. -/
theorem C8_amended_sweeper (store : List Challenge) (now : ℤ) (rec : Challenge)
    (hmem : rec ∈ store) :
    (rec.expiresAt + 60000 < now →
      rec ∉ cleanupChallenges store now) ∧
    (∀ u, rec.used = true → rec.usedAt = some u → 600000 < now - u →
      rec ∉ cleanupChallenges store now) ∧
    (∀ u, rec.used = true → rec.usedAt = some u → ¬ 600000 < now - u →
      ¬ rec.expiresAt + 60000 < now →
      rec ∈ cleanupChallenges store now) ∧
    (rec.used = false → ¬ rec.expiresAt + 60000 < now →
      rec ∈ cleanupChallenges store now) := by
  refine ⟨?_, ?_, ?_, ?_⟩
  · intro he hmem2
    have := (List.mem_filter.mp hmem2).2
    simp [shouldEvict, he] at this
  · intro u hu hua hlate hmem2
    have := (List.mem_filter.mp hmem2).2
    simp [shouldEvict, hu, hua, hlate] at this
  · intro u hu hua hlate he
    exact List.mem_filter.mpr ⟨hmem, by simp [shouldEvict, hu, hua, hlate, he]⟩
  · intro hu he
    exact List.mem_filter.mpr ⟨hmem, by simp [shouldEvict, hu, he]⟩

/-- Witness for the amended C8: `earlyEvictedC8` is removed (second bound),
`retainedC8` is kept (both bounds hold). -/
theorem C8_amended_sweeper_witness :
    earlyEvictedC8 ∉ cleanupChallenges [earlyEvictedC8, retainedC8] 70000 ∧
    retainedC8 ∈ cleanupChallenges [earlyEvictedC8, retainedC8] 70000 := by
  constructor
  · exact (C8_amended_sweeper [earlyEvictedC8, retainedC8] 70000 earlyEvictedC8
      (by simp)).1 (by decide)
  · exact (C8_amended_sweeper [earlyEvictedC8, retainedC8] 70000 retainedC8
      (by simp)).2.2.1 60000 rfl rfl (by decide) (by decide)

/-- Every row `scoreResults` accumulates carries one of the eight fixed
positive weights. -/
theorem subScoreEntries_weight_pos (results : Results) (im : String) :
    ∀ e ∈ subScoreEntries results im, 0 < e.2.2 := by
  intro e he
  simp only [subScoreEntries, List.mem_append] at he
  rcases he with ((((((he | he) | he) | he) | he) | he) | he) | he
  · rcases ho : results.transferFn with _ | v <;> rw [ho] at he <;> simp at he
    rw [he]; norm_num [weightTransferFn]
  · rcases ho : (results.tremor.isSome || results.accelTremor.isSome) with _ | _ <;>
      rw [ho] at he <;> simp at he
    rw [he]; norm_num [weightTremor]
  · rcases ho : results.oneOverF with _ | v <;> rw [ho] at he <;> simp at he
    rw [he]; norm_num [weightOneOverF]
  · rcases ho : results.signalDepNoise with _ | v <;> rw [ho] at he <;> simp at he
    rw [he]; norm_num [weightSignalDepNoise]
  · rcases ho : results.crossAxis with _ | v <;> rw [ho] at he <;> simp at he
    rw [he]; norm_num [weightCrossAxis]
  · rcases ho : results.pulseResponse with _ | v <;> rw [ho] at he <;> simp at he
    rw [he]; norm_num [weightPulseResponse]
  · rcases ho : results.cogInterference with _ | v <;> rw [ho] at he <;> simp at he
    rw [he]; norm_num [weightCogInterference]
  · rcases ho : results.minJerk with _ | v <;> rw [ho] at he <;> simp at he
    rw [he]; norm_num [weightMinJerk]

/-- **C10.** When no pipeline is valid the collected weight is zero and
`scoreResults` divides by nothing: it returns `overall = 0` with verdict
`NON-BIOLOGICAL CONTROLLER SUSPECTED` and class `score-bot`, so aggregate and
verdict are defined for every combination of validity flags. -/
theorem C10_zero_weight_total (results : Results) (im : String)
    (h : totalWeightOf results im = 0) :
    scoreResults results im =
      { overall := 0, scores := [], validCount := 0,
        verdict := "NON-BIOLOGICAL CONTROLLER SUSPECTED",
        verdictClass := "score-bot" } := by
  have hempty : subScoreEntries results im = [] := by
    by_contra hne
    obtain ⟨e, he⟩ := List.exists_mem_of_ne_nil _ hne
    have hpos : 0 < ((subScoreEntries results im).map (fun e => e.2.2)).sum := by
      apply List.sum_pos
      · intro w hw
        obtain ⟨e2, he2, hw2⟩ := List.mem_map.mp hw
        exact hw2 ▸ subScoreEntries_weight_pos results im e2 he2
      · simp [hne]
    rw [totalWeightOf] at h
    exact lt_irrefl 0 (h ▸ hpos)
  simp only [scoreResults, hempty]
  norm_num [verdictOf, humanThreshold, uncertainThreshold]

/-- Witness for C10 at the all-invalid result combination. -/
theorem C10_zero_weight_total_witness :
    scoreResults allInvalidResults "mouse" =
      { overall := 0, scores := [], validCount := 0,
        verdict := "NON-BIOLOGICAL CONTROLLER SUSPECTED",
        verdictClass := "score-bot" } :=
  C10_zero_weight_total allInvalidResults "mouse"
    (by simp [totalWeightOf, subScoreEntries, allInvalidResults])

/-- **C4.** The aggregate equals the weighted sum of valid-pipeline sub-scores
divided by the sum of their weights; the verdict map sends `overall ≥ 0.65` to
BIOLOGICAL, `≥ 0.35` to UNCERTAIN and the rest to NON-BIOLOGICAL — in
particular 0.64 ↦ UNCERTAIN, 0.65 ↦ BIOLOGICAL, 0.34 ↦ NON-BIOLOGICAL — and
the embed receipt's `verified` flag is true exactly when `overall ≥ 0.60`. -/
theorem C4_aggregate_and_verdict (results : Results) (im : String)
    (h : 0 < totalWeightOf results im) :
    (scoreResults results im).overall
        = ((subScoreEntries results im).map (fun e => e.2.1 * e.2.2)).sum
          / totalWeightOf results im ∧
    (scoreResults results im).verdict
        = (verdictOf (scoreResults results im).overall).1 ∧
    (scoreResults results im).verdictClass
        = (verdictOf (scoreResults results im).overall).2 ∧
    (verdictOf 0.64).1 = "UNCERTAIN — INCONCLUSIVE SIGNALS" ∧
    (verdictOf 0.65).1 = "BIOLOGICAL CONTROLLER DETECTED" ∧
    (verdictOf 0.34).1 = "NON-BIOLOGICAL CONTROLLER SUSPECTED" ∧
    (∀ (c : Challenge) (r : EmbedAnalysisResult) (now : ℤ),
      (mkEmbedReceipt c r now).verified = true ↔ 0.60 ≤ r.overall) := by
  rw [totalWeightOf] at h
  refine ⟨?_, ?_, ?_, ?_, ?_, ?_, ?_⟩
  · simp only [scoreResults, totalWeightOf, if_pos h]
  · simp only [scoreResults, if_pos h]
  · simp only [scoreResults, if_pos h]
  · norm_num [verdictOf, humanThreshold, uncertainThreshold]
  · norm_num [verdictOf, humanThreshold]
  · norm_num [verdictOf, humanThreshold, uncertainThreshold]
  · intro c r now
    simp [mkEmbedReceipt]

/-- Witness for C4 at the transfer-function-only combination (total weight 3). -/
theorem C4_aggregate_and_verdict_witness :
    0 < totalWeightOf transferOnlyResults "mouse" ∧
    ((scoreResults transferOnlyResults "mouse").overall
        = ((subScoreEntries transferOnlyResults "mouse").map (fun e => e.2.1 * e.2.2)).sum
          / totalWeightOf transferOnlyResults "mouse" ∧
     (verdictOf 0.64).1 = "UNCERTAIN — INCONCLUSIVE SIGNALS" ∧
     (verdictOf 0.65).1 = "BIOLOGICAL CONTROLLER DETECTED" ∧
     (verdictOf 0.34).1 = "NON-BIOLOGICAL CONTROLLER SUSPECTED") := by
  have hw : 0 < totalWeightOf transferOnlyResults "mouse" := by
    norm_num [totalWeightOf, subScoreEntries, transferOnlyResults, weightTransferFn]
  have h := C4_aggregate_and_verdict transferOnlyResults "mouse" hw
  exact ⟨hw, h.1, h.2.2.2.1, h.2.2.2.2.1, h.2.2.2.2.2.1⟩

/-- **C6.** For every pulse and sample time with
`dt = t - pulseStart` exactly `pulseHoldDuration`, the return branch of
`computePerturbation` contributes the full hold amplitudes `(ampX, ampY)`:
`frac = 0` gives `ease = 1 - 0² = 1`, so the waveform is continuous at the
hold/return boundary. -/
theorem C6_pulse_hold_return_continuous (t trackingStart off hold ret : ℚ) (p : Pulse)
    (hoff : p.offsetMs = some off) (hdt : t - (trackingStart + off) = hold)
    (hhold : 0 ≤ hold) (hret : 0 < ret) :
    computePerturbation t trackingStart [] [p] hold ret
      = { x := (p.ampX : ℝ), y := (p.ampY : ℝ), isPulse := false, pulseIndex := -1 } := by
  have h1 : ¬ t < trackingStart + off := by
    have : trackingStart + off + hold = t := by linarith
    nlinarith
  have h2 : ¬ t - (trackingStart + off) < hold := by rw [hdt]; exact lt_irrefl hold
  have h3 : t - (trackingStart + off) < hold + ret := by rw [hdt]; linarith
  simp only [computePerturbation, probeSum, List.map_nil, List.sum_nil, List.enum,
    List.enumFrom, List.foldl_cons, List.foldl_nil, pulseStep, hoff, h1, if_false,
    ite_false, h2, h3, if_true, ite_true]
  have hfrac : (t - (trackingStart + off) - hold) / ret = 0 := by
    rw [hdt, sub_self, zero_div]
  rw [hfrac]
  norm_num

/-- Witness for C6 at a concrete pulse: `offset 1000`, `hold 600`, `ret 200`,
sampled at `t = 1600`. -/
theorem C6_pulse_hold_return_continuous_witness :
    computePerturbation 1600 0 [] [⟨some 1000, none, 22, 0⟩] 600 200
      = { x := ((22 : ℚ) : ℝ), y := ((0 : ℚ) : ℝ), isPulse := false, pulseIndex := -1 } :=
  C6_pulse_hold_return_continuous 1600 0 1000 600 200 _ rfl (by norm_num)
    (by norm_num) (by norm_num)

/-- **C5 (counterexample).** At `pathTime = 0` the reconstructed target is NOT
the canvas centre: with a generator-reachable phase of `π/6` (inside
`π/4 ± 0.5`), canvas 100×100 and padding 0.3, the first tracking sample at
`t = trackingStart` has `targetX = 50 + 30·sin(π/6) = 65 ≠ 50 = cx` (the
smooth path contributes `cx + ax·sin(phase)` at `pathTime = 0`, and the
perturbation is zero there). -/
theorem C5_counterexample :
    reconstructTracking [(1000, 0, 0)] { trackingStart := 1000, dualtaskStart := 11000 }
        { challengeId := "e", issuedAt := 0, expiresAt := 1000, mode := none,
          trackingDuration := 20000,
          path := some ⟨0.15, 0.10, Real.pi / 6, 0.3⟩,
          perturbation := ⟨[], [], 600, 200⟩, used := false, usedAt := none }
        { width := 100, height := 100 }
      = some [{ t := 1000, x := 0, y := 0, targetX := 65, targetY := 50,
                pertX := 0, pertY := 0, isPulse := false, pulseIdx := -1 }] ∧
    (65 : ℝ) ≠ 50 := by
  constructor
  · simp only [reconstructTracking, computePerturbation, probeSum, pathTimeOf,
      smoothPathX, smoothPathY, List.map_nil, List.sum_nil, List.enum, List.enumFrom,
      List.foldl_nil, Option.some.injEq]
    norm_num [Real.sin_pi_div_six]
  · norm_num

/-- **C5 (amended).** Reconstruction is a deterministic function of its inputs
(two runs are identical), and at `pathTime = 0` the smooth Lissajous path is
`(cx + ax·sin(phase), cy)`: the y-coordinate equals the canvas centre exactly,
while the x-coordinate carries the randomized phase offset and equals `cx`
only when `ax·sin(phase) = 0`. -/
theorem C5_amended_reconstruction (pointer : List (ℚ × ℚ × ℚ)) (phases : Phases)
    (ch : Challenge) (canvas : Canvas) (cx cy ax ay freqX freqY : ℚ) (phase : ℝ) :
    reconstructTracking pointer phases ch canvas
        = reconstructTracking pointer phases ch canvas ∧
    smoothPathY cy ay freqY 0 = (cy : ℝ) ∧
    smoothPathX cx ax freqX phase 0 = (cx : ℝ) + (ax : ℝ) * Real.sin phase := by
  refine ⟨rfl, ?_, ?_⟩
  · simp [smoothPathY]
  · simp [smoothPathX]

/-- **C3.** Every embed verify submission that passes the full validation
chain (valid token, existing unexpired unused embed-mode challenge, at least
30 pointer samples, at least one element) makes the server set `used` and
`usedAt`, run the embed analysis and answer HTTP 200 with the verdict and a
signed receipt — there is no `analysis_failed` 500 on such well-formed input. -/
theorem C3_embed_wellformed_succeeds
    (rest : EmbedRawData → Challenge → Results)
    (store : List Challenge) (now : ℤ) (body : EmbedBody) (td : TokenData) (c : Challenge)
    (htok : body.token = some td)
    (hfind : findChallenge store td.challengeId = some c)
    (hmode : c.mode = some "embed") (hused : c.used = false)
    (hexp : ¬ c.expiresAt < now)
    (hp : ¬ body.pointer.length < 30) (hel : ¬ body.elements.length < 1) :
    ∃ result : EmbedAnalysisResult,
      analyzeEmbed rest (embedRawDataOf body) (setUsedAt now c) = some result ∧
      handleEmbedVerify (analyzeEmbed rest) store now body
        = (embedSuccessResponse c result (mkEmbedReceipt c result now),
           updateFirst store td.challengeId (setUsedAt now)) ∧
      (handleEmbedVerify (analyzeEmbed rest) store now body).1.status = 200 ∧
      (handleEmbedVerify (analyzeEmbed rest) store now body).1.error = none ∧
      (handleEmbedVerify (analyzeEmbed rest) store now body).1.verdict = some result.verdict ∧
      (handleEmbedVerify (analyzeEmbed rest) store now body).1.receipt
        = some (mkEmbedReceipt c result now) ∧
      findChallenge (handleEmbedVerify (analyzeEmbed rest) store now body).2 td.challengeId
        = some (setUsedAt now c) := by
  obtain ⟨result, hres⟩ : ∃ r, analyzeEmbed rest (embedRawDataOf body) (setUsedAt now c)
      = some r := ⟨_, rfl⟩
  have hEq : handleEmbedVerify (analyzeEmbed rest) store now body
      = (embedSuccessResponse c result (mkEmbedReceipt c result now),
         updateFirst store td.challengeId (setUsedAt now)) := by
    simp only [handleEmbedVerify, htok, hfind, hmode, hused, hexp, hp, hel]
    simp [hres]
  refine ⟨result, hres, hEq, ?_, ?_, ?_, ?_, ?_⟩
  · rw [hEq]; rfl
  · rw [hEq]; rfl
  · rw [hEq]; rfl
  · rw [hEq]; rfl
  · rw [hEq]
    exact findChallenge_updateFirst_self (setUsedAt now) (setUsedAt_challengeId now) hfind

/-- Witness for C3 at a concrete store and body. -/
theorem C3_embed_wellformed_succeeds_witness :
    ∃ result : EmbedAnalysisResult,
      analyzeEmbed (fun _ _ => allInvalidResults) (embedRawDataOf embedBodyC3)
          (setUsedAt 0 embedChallengeC3) = some result ∧
      handleEmbedVerify (analyzeEmbed (fun _ _ => allInvalidResults))
          [embedChallengeC3] 0 embedBodyC3
        = (embedSuccessResponse embedChallengeC3 result
            (mkEmbedReceipt embedChallengeC3 result 0),
           updateFirst [embedChallengeC3] "c" (setUsedAt 0)) ∧
      (handleEmbedVerify (analyzeEmbed (fun _ _ => allInvalidResults))
          [embedChallengeC3] 0 embedBodyC3).1.status = 200 ∧
      (handleEmbedVerify (analyzeEmbed (fun _ _ => allInvalidResults))
          [embedChallengeC3] 0 embedBodyC3).1.error = none ∧
      (handleEmbedVerify (analyzeEmbed (fun _ _ => allInvalidResults))
          [embedChallengeC3] 0 embedBodyC3).1.verdict = some result.verdict ∧
      (handleEmbedVerify (analyzeEmbed (fun _ _ => allInvalidResults))
          [embedChallengeC3] 0 embedBodyC3).1.receipt
        = some (mkEmbedReceipt embedChallengeC3 result 0) ∧
      findChallenge (handleEmbedVerify (analyzeEmbed (fun _ _ => allInvalidResults))
          [embedChallengeC3] 0 embedBodyC3).2 "c"
        = some (setUsedAt 0 embedChallengeC3) :=
  C3_embed_wellformed_succeeds (fun _ _ => allInvalidResults)
    [embedChallengeC3] 0 embedBodyC3 { challengeId := "c", expiresAt := 1000 }
    embedChallengeC3 rfl rfl rfl rfl (by decide) (by decide) (by decide)

/-- `reconstructTracking` keeps exactly the samples with
`t ≥ phases.trackingStart`: its length is the length of that filter,
independent of the trigonometric values. -/
theorem reconstructTracking_length (pointer : List (ℚ × ℚ × ℚ)) (phases : Phases)
    (ch : Challenge) (canvas : Canvas) (p : PathParams) (hpath : ch.path = some p) :
    ∃ l, reconstructTracking pointer phases ch canvas = some l ∧
      l.length
        = (pointer.filter (fun s => !decide (s.1 < phases.trackingStart))).length := by
  simp only [reconstructTracking, hpath]
  exact ⟨_, rfl, by rw [List.length_map]⟩

/-- **C9.** A standalone submission whose raw pointer array has at least 50
samples, but fewer than 50 of them at or after `phases.trackingStart`, makes
`analyze` return the `INSUFFICIENT DATA` result (`overall = 0`, class
`score-bot`, `validCount = 0`), and the server still answers HTTP 200 with a
signed receipt whose `verified` flag is false and `score` 0, having consumed
the challenge. -/
theorem C9_insufficient_tracking_200
    (rest : List TrackPoint → RawData → Challenge → Option AnalysisResult)
    (store : List Challenge) (now : ℤ) (body : VerifyBody) (td : TokenData) (c : Challenge)
    (p : PathParams) (ph : Phases) (cv : Canvas)
    (htok : body.token = some td)
    (hfind : findChallenge store td.challengeId = some c)
    (hused : c.used = false) (hexp : ¬ c.expiresAt < now)
    (hpath : c.path = some p)
    (hp : ¬ body.pointer.length < 50)
    (hph : body.phases = some ph) (hts : ¬ ph.trackingStart = 0) (hds : ¬ ph.dualtaskStart = 0)
    (hcv : body.canvas = some cv) (hw : ¬ cv.width = 0) (hh : ¬ cv.height = 0)
    (hfew : (body.pointer.filter (fun s => !decide (s.1 < ph.trackingStart))).length < 50) :
    analyze rest (rawDataOf body ph cv) (setUsedAt now c) = some insufficientDataResult ∧
    handleVerify (analyze rest) store now body
      = (successResponse c insufficientDataResult (mkReceipt c insufficientDataResult now),
         updateFirst store td.challengeId (setUsedAt now)) ∧
    (handleVerify (analyze rest) store now body).1.status = 200 ∧
    (handleVerify (analyze rest) store now body).1.overall = some 0 ∧
    (handleVerify (analyze rest) store now body).1.verdict = some "INSUFFICIENT DATA" ∧
    (handleVerify (analyze rest) store now body).1.verdictClass = some "score-bot" ∧
    (handleVerify (analyze rest) store now body).1.validCount = some 0 ∧
    (mkReceipt c insufficientDataResult now).verified = false ∧
    (mkReceipt c insufficientDataResult now).score = 0 ∧
    findChallenge (handleVerify (analyze rest) store now body).2 td.challengeId
      = some (setUsedAt now c) := by
  have hpath2 : (setUsedAt now c).path = some p := by simpa [setUsedAt] using hpath
  obtain ⟨l, hl, hlen⟩ := reconstructTracking_length body.pointer ph
    (setUsedAt now c) cv p hpath2
  have hlt : l.length < 50 := hlen ▸ hfew
  have hana : analyze rest (rawDataOf body ph cv) (setUsedAt now c)
      = some insufficientDataResult := by
    simp only [analyze, rawDataOf]
    rw [hl]
    simp [hlt]
  have hEq : handleVerify (analyze rest) store now body
      = (successResponse c insufficientDataResult (mkReceipt c insufficientDataResult now),
         updateFirst store td.challengeId (setUsedAt now)) := by
    simp only [handleVerify, htok, hfind, hused, hexp, hp, hph, hts, hds, hcv, hw, hh]
    simp [hana, hts, hds, hw, hh]
  have hver : (mkReceipt c insufficientDataResult now).verified = false := by
    simp only [mkReceipt, insufficientDataResult]
    exact decide_eq_false (by norm_num)
  have hscore : (mkReceipt c insufficientDataResult now).score = 0 := by
    simp [mkReceipt, insufficientDataResult, roundTo3]
  refine ⟨hana, hEq, ?_, ?_, ?_, ?_, ?_, hver, hscore, ?_⟩
  · rw [hEq]; rfl
  · rw [hEq]; rfl
  · rw [hEq]; rfl
  · rw [hEq]; rfl
  · rw [hEq]; rfl
  · rw [hEq]
    exact findChallenge_updateFirst_self (setUsedAt now) (setUsedAt_challengeId now) hfind

/-- Witness for C9 at a concrete store and body. -/
theorem C9_insufficient_tracking_200_witness :
    analyze (fun _ _ _ => none)
        (rawDataOf bodyC9 { trackingStart := 1000, dualtaskStart := 11000 }
          { width := 100, height := 100 })
        (setUsedAt 0 challengeC9)
      = some insufficientDataResult ∧
    (handleVerify (analyze (fun _ _ _ => none)) [challengeC9] 0 bodyC9).1.status = 200 ∧
    (handleVerify (analyze (fun _ _ _ => none)) [challengeC9] 0 bodyC9).1.verdict
      = some "INSUFFICIENT DATA" ∧
    (mkReceipt challengeC9 insufficientDataResult 0).verified = false ∧
    findChallenge (handleVerify (analyze (fun _ _ _ => none)) [challengeC9] 0 bodyC9).2 "f"
      = some (setUsedAt 0 challengeC9) := by
  have h := C9_insufficient_tracking_200 (fun _ _ _ => none) [challengeC9] 0 bodyC9
    { challengeId := "f", expiresAt := 1000 } challengeC9 ⟨0.15, 0.1, 0, 0.3⟩
    { trackingStart := 1000, dualtaskStart := 11000 } { width := 100, height := 100 }
    rfl rfl rfl (by decide) rfl (by decide) rfl (by decide) (by decide) rfl
    (by decide) (by decide) (by decide)
  exact ⟨h.1, h.2.2.1, h.2.2.2.2.1, h.2.2.2.2.2.2.2.1, h.2.2.2.2.2.2.2.2.2⟩

end CLNP
